import Mathlib

/-!
Shallow embedding of the usage-metering and entitlement core of the
sourcedocs repository (src/lib/db.ts, src/lib/api-auth.ts,
src/app/api/webhook/route.ts, src/app/api/v1/generate/route.ts and the
track-action route), together with theorems settling the frozen claims.

Timestamps are modelled as natural numbers (milliseconds since epoch).
Database reads that the source performs with supabase `.single()` yield
`data: null` both when the row is absent and when the read fails; the
embedding models that observable shape as `Option`.
-/

namespace SourceDocs

/-- The plan enumeration from src/lib/supabase.ts (`type Plan`). -/
inductive Plan
| free
| web_pro
| api_pro
| bundle
deriving Repr, DecidableEq

/-- Per-channel limits, one row of the PLAN_LIMITS table (db.ts). -/
structure ChannelLimits where
  web : Int
  api : Int
deriving Repr, DecidableEq

/-- The in-code constant PLAN_LIMITS table from db.ts; -1 means unlimited. -/
def PLAN_LIMITS : Plan → ChannelLimits
| .free => { web := 1, api := 0 }
| .web_pro => { web := -1, api := 0 }
| .api_pro => { web := 1, api := 100 }
| .bundle => { web := -1, api := 100 }

/-- A row of the users table (fields the metering core reads and writes). -/
structure User where
  id : String
  github_id : String
  plan : Plan
  is_pro : Bool
  api_calls_limit : Int
  api_calls_used : Int
  api_calls_reset_at : Nat
  stripe_customer_id : Option String
  stripe_subscription_id : Option String
  upgraded_at : Option Nat
  canceled_at : Option Nat
deriving Repr, DecidableEq

/-- A row of the generations table (the ledger), src/lib/supabase.ts
plus the three outcome flags set by the track-action route. -/
structure Generation where
  id : Nat
  user_id : String
  doc_type : String
  repo_url : String
  source : String
  generation_time_ms : Option Int
  created_at : Nat
  copied : Bool
  downloaded : Bool
  pr_created : Bool
deriving Repr, DecidableEq

/-- A row of the api_keys table as written by createApiKey in db.ts:
the key column holds the full secret string. -/
structure ApiKeyRow where
  id : Nat
  user_id : String
  key : String
  name : String
  created_at : Nat
  last_used_at : Option Nat
deriving Repr, DecidableEq

/-- The durable store: users, the generation ledger and the api_keys
table, plus a fresh-id counter standing for the database id sequence. -/
structure Db where
  users : List User
  generations : List Generation
  apiKeys : List ApiKeyRow
  nextId : Nat
deriving Repr, DecidableEq

/-- Read of one users row by primary key, the shape of
`.from(users).select().eq(id, userId).single()`.  A storage failure and
a missing row both surface as `none`, matching the `data: null` the
source observes in either case. -/
def findUser (db : Db) (userId : String) : Option User :=
  db.users.find? (fun u => u.id == userId)

/-- getMonthlyWebUsage (db.ts): count of generations rows with this
user_id, source = web, created_at at or after the start of the current
calendar month.  The start-of-month instant the source computes from the
wall clock is passed in as `startOfMonth`. -/
def getMonthlyWebUsage (db : Db) (userId : String) (startOfMonth : Nat) : Nat :=
  (db.generations.filter
    (fun g => g.user_id == userId && (g.source == "web" && decide (startOfMonth ≤ g.created_at)))).length

/-- getMonthlyUsage from the earlier revision of db.ts: like
getMonthlyWebUsage but with no source filter. -/
def getMonthlyUsage (db : Db) (userId : String) (startOfMonth : Nat) : Nat :=
  (db.generations.filter
    (fun g => g.user_id == userId && decide (startOfMonth ≤ g.created_at))).length

/-- The entitlement result shape returned by canGenerateWeb and
canGenerateApi (allowed, usage, limit, plan). -/
structure EntitlementResult where
  allowed : Bool
  usage : Int
  limit : Int
  plan : Plan
deriving Repr, DecidableEq

/-- canGenerateWeb (db.ts): read the user row; on null data fail closed;
unlimited web plans always allow; otherwise allow exactly when the
monthly web count is strictly below the plan web limit. -/
def canGenerateWeb (db : Db) (userId : String) (startOfMonth : Nat) : EntitlementResult :=
  match findUser db userId with
  | none => { allowed := false, usage := 0, limit := 0, plan := .free }
  | some user =>
    let plan := user.plan
    let limits := PLAN_LIMITS plan
    let usage : Int := (getMonthlyWebUsage db userId startOfMonth : Int)
    if limits.web == -1 then
      { allowed := true, usage := usage, limit := -1, plan := plan }
    else
      { allowed := decide (usage < limits.web), usage := usage, limit := limits.web, plan := plan }

/-- checkAndResetApiCalls (db.ts): when more than 30 days have passed
since api_calls_reset_at, zero the counter and restart the window.  The
source also persists this update; the persisted write does not affect
the evaluation result modelled here. -/
def checkAndResetApiCalls (user : User) (now : Nat) : User :=
  if (30 * 24 * 60 * 60 * 1000 : Int) < (now : Int) - (user.api_calls_reset_at : Int) then
    { user with api_calls_used := 0, api_calls_reset_at := now }
  else
    user

/-- canGenerateApi (db.ts): read the user row; on null data fail closed;
apply the 30-day reset; plans with api limit 0 always deny; otherwise
allow exactly when the persisted counter is strictly below the plan api
limit. -/
def canGenerateApi (db : Db) (userId : String) (now : Nat) : EntitlementResult :=
  match findUser db userId with
  | none => { allowed := false, usage := 0, limit := 0, plan := .free }
  | some user0 =>
    let user := checkAndResetApiCalls user0 now
    let limits := PLAN_LIMITS user.plan
    if limits.api == 0 then
      { allowed := false, usage := user.api_calls_used, limit := 0, plan := user.plan }
    else
      { allowed := decide (user.api_calls_used < limits.api), usage := user.api_calls_used,
        limit := limits.api, plan := user.plan }

/-- The result shape of the earlier-revision canGenerate (db.ts, first
revision): allowed, usage and limit only. -/
structure LegacyEntitlement where
  allowed : Bool
  usage : Int
  limit : Int
deriving Repr, DecidableEq

/-- canGenerate from the earlier revision of db.ts.  The source computes
`limit = user?.is_pro ? Infinity : 1` and `allowed = usage < limit`;
with a null user row the optional chaining yields a falsy value, so the
limit is 1.  The Infinity comparison (always true) is modelled by the
is_pro branch returning allowed = true. -/
def canGenerate (db : Db) (userId : String) (startOfMonth : Nat) : LegacyEntitlement :=
  let user := findUser db userId
  let isPro := match user with
    | some u => u.is_pro
    | none => false
  let usage : Int := (getMonthlyUsage db userId startOfMonth : Int)
  { allowed := if isPro then true else decide (usage < 1),
    usage := usage,
    limit := if isPro then -1 else 1 }

/-- The two request channels. -/
inductive Channel
| web
| api
deriving Repr, DecidableEq

/-- The per-channel limit of a plan in the PLAN_LIMITS table. -/
def planLimit (plan : Plan) (ch : Channel) : Int :=
  match ch with
  | .web => (PLAN_LIMITS plan).web
  | .api => (PLAN_LIMITS plan).api

/-- The entitlement evaluation entry point: dispatch to the per-channel
evaluator of db.ts (canGenerateWeb for web, canGenerateApi for api). -/
def evaluate (db : Db) (userId : String) (ch : Channel) (startOfMonth now : Nat) : EntitlementResult :=
  match ch with
  | .web => canGenerateWeb db userId startOfMonth
  | .api => canGenerateApi db userId now

/-- recordGeneration (db.ts): insert one generations row with the given
channel in the source column; the three outcome flags start false.  The
function only inserts; it touches no counter on the users row. -/
def recordGeneration (db : Db) (userId docType repoUrl source : String)
    (generationTimeMs : Option Int) (now : Nat) : Db :=
  { db with
    generations :=
      { id := db.nextId, user_id := userId, doc_type := docType, repo_url := repoUrl,
        source := source, generation_time_ms := generationTimeMs, created_at := now,
        copied := false, downloaded := false, pr_created := false } :: db.generations,
    nextId := db.nextId + 1 }

/-- Modelled from the spec: the storage-side routine increment_api_calls
invoked by incrementApiUsage through supabaseAdmin.rpc is a SQL function
that is not under src/; per the spec it performs an atomic increment of
the api_calls_used counter of the named account by one. -/
def increment_api_calls (db : Db) (userId : String) : Db :=
  { db with
    users := db.users.map
      (fun u => if u.id == userId then { u with api_calls_used := u.api_calls_used + 1 } else u) }

/-- incrementApiUsage (db.ts): delegate to the increment_api_calls rpc. -/
def incrementApiUsage (db : Db) (userId : String) : Db :=
  increment_api_calls db userId

/-- The state change the POST /api/v1/generate route performs after a
generation succeeds (route.ts lines 274 to 286): exactly one
recordGeneration call with source = api.  The route never calls
incrementApiUsage or trackApiUsage. -/
def apiGenerateRecord (db : Db) (userId docType repoUrl : String)
    (generationTimeMs : Option Int) (now : Nat) : Db :=
  recordGeneration db userId docType repoUrl "api" generationTimeMs now

/-- N consecutive successful API generations through the route. -/
def apiGenerateN (db : Db) (userId docType repoUrl : String) (now : Nat) : Nat → Db
| 0 => db
| n + 1 => apiGenerateRecord (apiGenerateN db userId docType repoUrl now n) userId docType repoUrl none now

/-- The three trackable post-generation actions of the track-action
route (copy, download, pr). -/
inductive TrackedAction
| copy
| download
| pr
deriving Repr, DecidableEq

/-- The columnMap of the track-action route: set the boolean column the
action maps to (copied, downloaded, pr_created). -/
def setActionColumn (a : TrackedAction) (g : Generation) : Generation :=
  match a with
  | .copy => { g with copied := true }
  | .download => { g with downloaded := true }
  | .pr => { g with pr_created := true }

/-- The lookup the track-action route issues: select generations rows
with this repo_url and doc_type, order by created_at descending,
limit 1.  The query has no user_id filter. -/
def mostRecentByRepoAndDocType (gens : List Generation) (repoUrl docType : String) : Option Generation :=
  (gens.filter (fun g => g.repo_url == repoUrl && g.doc_type == docType)).foldl
    (fun best g =>
      match best with
      | none => some g
      | some b => if b.created_at < g.created_at then some g else some b)
    none

/-- The response of the track-action route. -/
structure TrackActionResponse where
  status : Nat
  success : Bool
  tracked : Bool
  generationId : Option Nat
deriving Repr, DecidableEq

/-- POST /api/track-action after session authentication and input
validation: find the most recent generations row for the given repo_url
and doc_type and set the action flag on it.  The authenticated session
user (sessionUserId) gates access but is not part of the lookup, which
filters on repo_url and doc_type only. -/
def trackActionPOST (db : Db) (sessionUserId repoUrl docType : String)
    (action : TrackedAction) : TrackActionResponse × Db :=
  match mostRecentByRepoAndDocType db.generations repoUrl docType with
  | none =>
    ({ status := 200, success := true, tracked := false, generationId := none }, db)
  | some g =>
    ({ status := 200, success := true, tracked := true, generationId := some g.id },
     { db with
       generations := db.generations.map
         (fun h => if h.id == g.id then setActionColumn action h else h) })

/-- getUserByApiKey (db.ts): resolve the api_keys row whose key column
equals the presented key, then read that users row.  The source also
touches last_used_at on the key row; that side write does not affect
the resolution result modelled here. -/
def getUserByApiKey (db : Db) (apiKey : String) : Option User :=
  match db.apiKeys.find? (fun k => k.key == apiKey) with
  | none => none
  | some keyData => findUser db keyData.user_id

/-- Boolean prefix test on strings, the behavior of the startsWith of
the source runtime, stated over the character list so that concrete
instances evaluate. -/
def strStartsWith (s p : String) : Bool := p.data.isPrefixOf s.data

/-- Drop of the first n characters of a string; applied at 7 it is the
residue the source obtains by replacing the first Bearer prefix
occurrence with the empty string. -/
def strDrop (s : String) (n : Nat) : String := String.mk (s.data.drop n)

/-- The result shape of authenticateApiRequest (api-auth.ts). -/
structure ApiAuthResult where
  success : Bool
  user : Option User
  error : Option String
  status : Option Nat
deriving Repr, DecidableEq

/-- authenticateApiRequest (api-auth.ts): reject a missing or malformed
Authorization header, reject keys without the sk_live_ prefix, resolve
the key to a user, then call canGenerateApi and reject with status 429
when the result is not allowed.  The 429 message interpolates usage and
limit in the source; the text is abbreviated here. -/
def authenticateApiRequest (db : Db) (authHeader : Option String) (now : Nat) : ApiAuthResult :=
  match authHeader with
  | none =>
    { success := false, user := none,
      error := some "Missing or invalid Authorization header. Use: Bearer sk_live_xxx",
      status := some 401 }
  | some header =>
    if strStartsWith header "Bearer " then
      let apiKey := strDrop header 7
      if strStartsWith apiKey "sk_live_" then
        match getUserByApiKey db apiKey with
        | none =>
          { success := false, user := none, error := some "Invalid API key", status := some 401 }
        | some user =>
          let r := canGenerateApi db user.id now
          if r.allowed then
            { success := true, user := some user, error := none, status := none }
          else
            { success := false, user := none, error := some "API limit reached", status := some 429 }
      else
        { success := false, user := none, error := some "Invalid API key format", status := some 401 }
    else
      { success := false, user := none,
        error := some "Missing or invalid Authorization header. Use: Bearer sk_live_xxx",
        status := some 401 }

/-- createApiKey (db.ts): build the key as sk_live_ followed by the
32-character random suffix and insert an api_keys row whose key column
holds that full string; return the key. -/
def createApiKey (db : Db) (userId name randomSuffix : String) (now : Nat) : String × Db :=
  let key := "sk_live_" ++ randomSuffix
  (key,
   { db with
     apiKeys :=
       { id := db.nextId, user_id := userId, key := key, name := name,
         created_at := now, last_used_at := none } :: db.apiKeys,
     nextId := db.nextId + 1 })

/-- The truncation getApiKeys applies: first 12 characters, an ellipsis,
last 4 characters. -/
def keyPreview (key : String) : String :=
  key.take 12 ++ "..." ++ key.takeRight 4

/-- The per-key view getApiKeys returns: no key column, only the
truncated key_preview. -/
structure ApiKeyView where
  id : Nat
  name : String
  key_preview : String
  created_at : Nat
  last_used_at : Option Nat
deriving Repr, DecidableEq

/-- getApiKeys (db.ts): list the api_keys rows of this user and map each
to a view carrying only the truncated preview of the key column.  The
created_at ordering of the source does not change the set of views. -/
def getApiKeys (db : Db) (userId : String) : List ApiKeyView :=
  (db.apiKeys.filter (fun k => k.user_id == userId)).map
    (fun k =>
      { id := k.id, name := k.name, key_preview := keyPreview k.key,
        created_at := k.created_at, last_used_at := k.last_used_at })

/-- The plan configuration a price id maps to in PRICE_TO_PLAN
(webhook/route.ts): internal plan, is_pro flag, api_calls_limit. -/
structure PlanConfig where
  plan : Plan
  is_pro : Bool
  api_calls_limit : Int
deriving Repr, DecidableEq

/-- The event types the webhook switch handles; every other type falls
through the switch unhandled. -/
inductive StripeEventType
| checkout_session_completed
| customer_subscription_deleted
| customer_subscription_updated
| other
deriving Repr, DecidableEq

/-- The fields of a verified payment event the handler reads.
subscription_price_id stands for the price id the handler obtains from
the external subscriptions retrieve call (items.data[0]?.price.id,
absent when the items list is empty). -/
structure StripeEvent where
  type : StripeEventType
  metadata_user_id : Option String
  session_subscription : Option String
  session_customer : Option String
  subscription_price_id : Option String
  subscription_id : String
  subscription_status : String
deriving Repr, DecidableEq

/-- An inbound webhook request: the stripe-signature header if present,
whether constructEvent verifies the payload against the shared secret,
and the decoded event. -/
structure WebhookRequest where
  signature : Option String
  signatureValid : Bool
  event : StripeEvent
deriving Repr, DecidableEq

/-- The webhook handler response: HTTP status, whether the body is the
received acknowledgement, and the error string otherwise. -/
structure WebhookResponse where
  status : Nat
  received : Bool
  error : Option String
deriving Repr, DecidableEq

/-- An update of the users row with the given id, the shape of
`.from(users).update(...).eq(id, userId)`.  updateOk models whether the
update statement succeeds; on failure the handler only logs, the store
is unchanged. -/
def updateUsersById (db : Db) (userId : String) (f : User → User) (updateOk : Bool) : Db :=
  if updateOk then
    { db with users := db.users.map (fun u => if u.id == userId then f u else u) }
  else
    db

/-- An update of the users rows whose stored subscription reference
equals the given id, the shape of
`.from(users).update(...).eq(stripe_subscription_id, subId)`. -/
def updateUsersBySubscriptionId (db : Db) (subId : String) (f : User → User) (updateOk : Bool) : Db :=
  if updateOk then
    { db with
      users := db.users.map (fun u => if u.stripe_subscription_id == some subId then f u else u) }
  else
    db

/-- The users update the checkout-completed branch writes: absolute
values from the plan configuration, a zeroed counter, fresh window and
upgrade stamps, and the payment references carried by the session. -/
def checkoutUpdate (planConfig : PlanConfig) (customer : Option String) (subId : String)
    (now : Nat) (u : User) : User :=
  { u with
    plan := planConfig.plan,
    is_pro := planConfig.is_pro,
    api_calls_limit := planConfig.api_calls_limit,
    api_calls_used := 0,
    api_calls_reset_at := now,
    upgraded_at := some now,
    stripe_customer_id := customer,
    stripe_subscription_id := some subId }

/-- POST /api/webhook (webhook/route.ts): reject a missing signature
with 400, reject a payload that fails verification with 400, otherwise
apply the event switch and acknowledge with received = true.  The
PRICE_TO_PLAN table is built from environment configuration and is
passed in as priceToPlan; now is the wall-clock instant of the request;
updateOk models the outcome of the single users update a branch may
issue. -/
def webhookPOST (priceToPlan : String → Option PlanConfig) (req : WebhookRequest)
    (db : Db) (now : Nat) (updateOk : Bool) : WebhookResponse × Db :=
  match req.signature with
  | none => ({ status := 400, received := false, error := some "No signature" }, db)
  | some _ =>
    if req.signatureValid then
      let db2 :=
        match req.event.type with
        | .checkout_session_completed =>
          match req.event.metadata_user_id, req.event.session_subscription with
          | some userId, some subId =>
            match req.event.subscription_price_id.bind priceToPlan with
            | some planConfig =>
              updateUsersById db userId
                (checkoutUpdate planConfig req.event.session_customer subId now) updateOk
            | none => db
          | _, _ => db
        | .customer_subscription_deleted =>
          updateUsersBySubscriptionId db req.event.subscription_id
            (fun u =>
              { u with plan := .free, is_pro := false, api_calls_limit := 0,
                       canceled_at := some now })
            updateOk
        | .customer_subscription_updated =>
          if req.event.subscription_status == "past_due"
              || req.event.subscription_status == "canceled"
              || req.event.subscription_status == "unpaid" then
            updateUsersBySubscriptionId db req.event.subscription_id
              (fun u => { u with plan := .free, is_pro := false, api_calls_limit := 0 })
              updateOk
          else
            db
        | .other => db
      ({ status := 200, received := true, error := none }, db2)
    else
      ({ status := 400, received := false, error := some "Invalid signature" }, db)

/-! Fixtures. -/

/-- Fixture for C1: an api_pro user with a freshly reset counter. -/
def uC1 : User :=
  { id := "u1", github_id := "g1", plan := .api_pro, is_pro := false,
    api_calls_limit := 100, api_calls_used := 0, api_calls_reset_at := 0,
    stripe_customer_id := none, stripe_subscription_id := none,
    upgraded_at := none, canceled_at := none }

/-- Fixture for C1: store holding only that user and an empty ledger. -/
def dbC1 : Db := { users := [uC1], generations := [], apiKeys := [], nextId := 1 }

/-- Fixture for C4: a store in which the users read yields no row. -/
def dbC4 : Db := { users := [], generations := [], apiKeys := [], nextId := 1 }

/-- Fixture for C5: a web generation by account A for a repo and doc
type. -/
def genC5A : Generation :=
  { id := 1, user_id := "A", doc_type := "readme", repo_url := "https://github.com/o/r",
    source := "web", generation_time_ms := none, created_at := 100,
    copied := false, downloaded := false, pr_created := false }

/-- Fixture for C5: a later web generation by account B for the same
repo and doc type. -/
def genC5B : Generation :=
  { id := 2, user_id := "B", doc_type := "readme", repo_url := "https://github.com/o/r",
    source := "web", generation_time_ms := none, created_at := 200,
    copied := false, downloaded := false, pr_created := false }

/-- Fixture for C5: ledger holding both generations. -/
def dbC5 : Db := { users := [], generations := [genC5A, genC5B], apiKeys := [], nextId := 3 }

/-- Fixture for C7 and C10: a checkout event payload. -/
def evWebhook : StripeEvent :=
  { type := .checkout_session_completed, metadata_user_id := some "u1",
    session_subscription := some "sub1", session_customer := some "cus1",
    subscription_price_id := some "price1", subscription_id := "sub1",
    subscription_status := "active" }

/-- Fixture for C7: a request carrying no stripe-signature header. -/
def reqC7 : WebhookRequest :=
  { signature := none, signatureValid := false, event := evWebhook }

/-- Fixture for C7: a small store with one user. -/
def dbC7 : Db :=
  { users :=
      [{ id := "u1", github_id := "g1", plan := .free, is_pro := false,
         api_calls_limit := 0, api_calls_used := 0, api_calls_reset_at := 0,
         stripe_customer_id := none, stripe_subscription_id := none,
         upgraded_at := none, canceled_at := none }],
    generations := [], apiKeys := [], nextId := 2 }

/-- Fixture for C10: a verified request whose price id is unmapped and
whose subscription matches no account. -/
def reqC10 : WebhookRequest :=
  { signature := some "t=1,v1=abc", signatureValid := true, event := evWebhook }

/-- Fixture for C10: an empty store, so no account matches the event. -/
def dbC10 : Db := { users := [], generations := [], apiKeys := [], nextId := 1 }

/-! Claim theorems. -/

/-- C1: the claim states that recordGeneration on the api channel both
inserts a ledger row and increments api_calls_used by one, so N
successful API generations from a fresh counter leave the counter at N.
Evaluating the code at the failing input: three successful API
generations through the v1 generate route insert three ledger rows but
leave api_calls_used at 0, not 3, because neither recordGeneration nor
the route ever invokes incrementApiUsage; the modelled increment routine
would have moved the counter to 1 after one call had it been invoked. -/
theorem c1_api_counter_never_incremented :
    ((findUser (apiGenerateN dbC1 "u1" "readme" "https://github.com/o/r" 5 3) "u1").map
        (fun u => u.api_calls_used) = some 0) ∧
    (apiGenerateN dbC1 "u1" "readme" "https://github.com/o/r" 5 3).generations.length = 3 ∧
    ¬ ((findUser (apiGenerateN dbC1 "u1" "readme" "https://github.com/o/r" 5 3) "u1").map
        (fun u => u.api_calls_used) = some 3) ∧
    ((findUser (incrementApiUsage dbC1 "u1") "u1").map (fun u => u.api_calls_used) = some 1) := by
  decide

/-- C4 counterexample: the claim states that every entitlement
evaluation with an unreadable account record results in allowed = false.
The earlier-revision evaluator canGenerate observes the null user row,
falls back to the non-pro limit 1 and allows when monthly usage is 0:
it fails open. -/
theorem c4_legacy_canGenerate_fails_open :
    findUser dbC4 "u1" = none ∧ (canGenerate dbC4 "u1" 0).allowed = true := by
  decide

/-- C4 amended: the channel evaluators canGenerateWeb and canGenerateApi
fail closed, returning allowed = false whenever the users read yields no
row; the earlier-revision canGenerate does not share this property. -/
theorem c4_channel_evaluators_fail_closed (db : Db) (userId : String) (som now : Nat)
    (hu : findUser db userId = none) :
    (canGenerateWeb db userId som).allowed = false ∧
    (canGenerateApi db userId now).allowed = false := by
  refine ⟨?_, ?_⟩ <;> simp [canGenerateWeb, canGenerateApi, hu]

/-- C4 witness: the amended theorem applied to the concrete store with
no readable account. -/
theorem c4_witness :
    findUser dbC4 "u2" = none ∧
    ((canGenerateWeb dbC4 "u2" 0).allowed = false ∧
     (canGenerateApi dbC4 "u2" 0).allowed = false) :=
  ⟨by decide, c4_channel_evaluators_fail_closed dbC4 "u2" 0 0 (by decide)⟩

/-- C5: the claim states the flagged event always belongs to the
calling account.  Evaluating the code at the failing input: account A
tracks a copy action for the repo and doc type it generated, and the
flag lands on the more recent generation of account B, because the
lookup filters on repo_url and doc_type only. -/
theorem c5_flag_lands_on_other_account :
    (trackActionPOST dbC5 "A" "https://github.com/o/r" "readme" .copy).1.tracked = true ∧
    (((trackActionPOST dbC5 "A" "https://github.com/o/r" "readme" .copy).2.generations.filter
        (fun g => g.copied)).map (fun g => g.user_id) = ["B"]) ∧
    "B" ≠ "A" := by
  decide

/-- C7: an inbound webhook event with a missing signature header or a
payload that fails verification is answered with status 400 and the
store is unchanged: no plan, flag or counter of any account mutates. -/
theorem c7_unverified_webhook_rejected_without_mutation
    (priceToPlan : String → Option PlanConfig) (req : WebhookRequest) (db : Db)
    (now : Nat) (updateOk : Bool)
    (h : req.signature = none ∨ req.signatureValid = false) :
    (webhookPOST priceToPlan req db now updateOk).1.status = 400 ∧
    (webhookPOST priceToPlan req db now updateOk).1.received = false ∧
    (webhookPOST priceToPlan req db now updateOk).2 = db := by
  rcases h with h | h
  · simp [webhookPOST, h]
  · cases hs : req.signature with
    | none => simp [webhookPOST, hs]
    | some s => simp [webhookPOST, hs, h]

/-- C7 witness: the theorem applied to a concrete unsigned request. -/
theorem c7_witness :
    (reqC7.signature = none ∨ reqC7.signatureValid = false) ∧
    ((webhookPOST (fun _ => none) reqC7 dbC7 0 true).1.status = 400 ∧
     (webhookPOST (fun _ => none) reqC7 dbC7 0 true).1.received = false ∧
     (webhookPOST (fun _ => none) reqC7 dbC7 0 true).2 = dbC7) :=
  ⟨Or.inl rfl,
   c7_unverified_webhook_rejected_without_mutation (fun _ => none) reqC7 dbC7 0 true (Or.inl rfl)⟩

/-- C10: every webhook request whose signature verifies is acknowledged
with status 200 and received = true, whatever the processing outcome:
the store update may fail, the price id may be unmapped, and the
subscription reference may match no account. -/
theorem c10_verified_webhook_always_acknowledged
    (priceToPlan : String → Option PlanConfig) (req : WebhookRequest) (db : Db)
    (now : Nat) (updateOk : Bool) (s : String)
    (hs : req.signature = some s) (hv : req.signatureValid = true) :
    (webhookPOST priceToPlan req db now updateOk).1 =
      { status := 200, received := true, error := none } := by
  simp [webhookPOST, hs, hv]

/-- C10 witness: the theorem applied to a verified request over an empty
store, with an unmapped price id and a failing update statement. -/
theorem c10_witness :
    reqC10.signature = some "t=1,v1=abc" ∧ reqC10.signatureValid = true ∧
    (webhookPOST (fun _ => none) reqC10 dbC10 0 false).1 =
      { status := 200, received := true, error := none } :=
  ⟨rfl, rfl,
   c10_verified_webhook_always_acknowledged (fun _ => none) reqC10 dbC10 0 false "t=1,v1=abc" rfl rfl⟩

/-- The 30-day reset branch never changes the plan of the user row. -/
theorem checkAndResetApiCalls_plan (u : User) (now : Nat) :
    (checkAndResetApiCalls u now).plan = u.plan := by
  unfold checkAndResetApiCalls
  split <;> rfl

/-- C2: for an account whose plan gives the channel a finite limit L of
at least 1, the evaluation allows exactly when the reported current
usage is strictly below L, and denies when usage equals L. -/
theorem c2_finite_limit_is_strict (db : Db) (userId : String) (ch : Channel)
    (som now : Nat) (u : User) (L : Int)
    (hu : findUser db userId = some u)
    (hL : planLimit u.plan ch = L) (hfin : 1 ≤ L) :
    ((evaluate db userId ch som now).allowed = true ↔
      (evaluate db userId ch som now).usage < L) ∧
    ((evaluate db userId ch som now).usage = L →
      (evaluate db userId ch som now).allowed = false) := by
  cases ch with
  | web =>
      have hweb : (PLAN_LIMITS u.plan).web = L := hL
      have hne : L ≠ -1 := by omega
      refine ⟨?_, ?_⟩
      · simp [evaluate, canGenerateWeb, hu, hweb, hne]
      · intro h
        have hL2 : ((getMonthlyWebUsage db userId som : Int)) = L := by
          simpa [evaluate, canGenerateWeb, hu, hweb, hne] using h
        simp [evaluate, canGenerateWeb, hu, hweb, hne, hL2]
  | api =>
      have hplan : (checkAndResetApiCalls u now).plan = u.plan :=
        checkAndResetApiCalls_plan u now
      have hapi : (PLAN_LIMITS (checkAndResetApiCalls u now).plan).api = L := by
        rw [hplan]
        exact hL
      have hne : L ≠ 0 := by omega
      refine ⟨?_, ?_⟩
      · simp [evaluate, canGenerateApi, hu, hapi, hne]
      · intro h
        have hL2 : (checkAndResetApiCalls u now).api_calls_used = L := by
          simpa [evaluate, canGenerateApi, hu, hapi, hne] using h
        simp [evaluate, canGenerateApi, hu, hapi, hne, hL2]

/-- Fixture for C2: a free-plan user with an empty ledger. -/
def uC2 : User :=
  { id := "u2", github_id := "g2", plan := .free, is_pro := false,
    api_calls_limit := 0, api_calls_used := 0, api_calls_reset_at := 0,
    stripe_customer_id := none, stripe_subscription_id := none,
    upgraded_at := none, canceled_at := none }

/-- Fixture for C2: store holding only that user. -/
def dbC2 : Db := { users := [uC2], generations := [], apiKeys := [], nextId := 1 }

/-- C2 witness: the theorem applied to the free plan on the web channel,
whose limit is the finite value 1. -/
theorem c2_witness :
    (findUser dbC2 "u2" = some uC2 ∧ planLimit uC2.plan .web = 1 ∧ (1 : Int) ≤ 1) ∧
    (((evaluate dbC2 "u2" .web 0 0).allowed = true ↔
       (evaluate dbC2 "u2" .web 0 0).usage < 1) ∧
     ((evaluate dbC2 "u2" .web 0 0).usage = 1 →
       (evaluate dbC2 "u2" .web 0 0).allowed = false)) :=
  ⟨⟨by decide, by decide, by decide⟩,
   c2_finite_limit_is_strict dbC2 "u2" .web 0 0 uC2 1 (by decide) (by decide) (by decide)⟩

/-- The spec-side description of a counted web event: it belongs to the
account, its channel is web, and it was created at or after the first
instant of the current calendar month. -/
def isCountedWebEvent (userId : String) (startOfMonth : Nat) (g : Generation) : Prop :=
  g.user_id = userId ∧ g.source = "web" ∧ startOfMonth ≤ g.created_at

instance (userId : String) (startOfMonth : Nat) (g : Generation) :
    Decidable (isCountedWebEvent userId startOfMonth g) := by
  unfold isCountedWebEvent
  infer_instance

/-- The row filter of the getMonthlyWebUsage query decides exactly the
isCountedWebEvent predicate. -/
theorem webUsagePred_eq_decide (userId : String) (som : Nat) (g : Generation) :
    (g.user_id == userId && (g.source == "web" && decide (som ≤ g.created_at))) =
      decide (isCountedWebEvent userId som g) := by
  by_cases h1 : g.user_id = userId <;> by_cases h2 : g.source = "web" <;>
    by_cases h3 : som ≤ g.created_at <;>
      simp [isCountedWebEvent, h1, h2, h3]

/-- The usage figure canGenerateWeb reports when the account row is
readable is the monthly web count. -/
theorem canGenerateWeb_usage (db : Db) (userId : String) (som : Nat) (u : User)
    (hu : findUser db userId = some u) :
    (canGenerateWeb db userId som).usage = (getMonthlyWebUsage db userId som : Int) := by
  simp only [canGenerateWeb, hu]
  split <;> rfl

/-- getMonthlyWebUsage counts exactly the rows satisfying the
isCountedWebEvent predicate. -/
theorem getMonthlyWebUsage_eq_count (db : Db) (userId : String) (som : Nat) :
    getMonthlyWebUsage db userId som =
      (db.generations.filter (fun g => decide (isCountedWebEvent userId som g))).length := by
  unfold getMonthlyWebUsage
  congr 1
  apply List.filter_congr
  intro g _
  exact webUsagePred_eq_decide userId som g

/-- C3 amended: the usage figure of a canGenerateWeb evaluation equals
the number of ledger rows of this account with channel web created at
or after the start of the current month, and inserting any row that
fails that predicate (other channel, other account, or earlier month)
leaves the usage figure unchanged; the legacy evaluator canGenerate
does not share this property. -/
theorem c3_web_usage_counts_exactly_month_web_events (db : Db) (userId : String)
    (som : Nat) (u : User) (hu : findUser db userId = some u) :
    ((canGenerateWeb db userId som).usage =
      ((db.generations.filter (fun g => decide (isCountedWebEvent userId som g))).length : Int)) ∧
    (∀ g : Generation, ¬ isCountedWebEvent userId som g →
      (canGenerateWeb { db with generations := g :: db.generations } userId som).usage =
        (canGenerateWeb db userId som).usage) := by
  refine ⟨?_, ?_⟩
  · rw [canGenerateWeb_usage db userId som u hu, getMonthlyWebUsage_eq_count]
  · intro g hg
    have hu2 : findUser { db with generations := g :: db.generations } userId = some u := hu
    rw [canGenerateWeb_usage _ userId som u hu2, canGenerateWeb_usage db userId som u hu]
    norm_cast
    rw [getMonthlyWebUsage_eq_count, getMonthlyWebUsage_eq_count]
    simp [List.filter_cons, decide_eq_false hg]

/-- Fixture for C3: a free-plan user. -/
def uC3 : User :=
  { id := "u3", github_id := "g3", plan := .free, is_pro := false,
    api_calls_limit := 0, api_calls_used := 0, api_calls_reset_at := 0,
    stripe_customer_id := none, stripe_subscription_id := none,
    upgraded_at := none, canceled_at := none }

/-- Fixture for C3: one counted web event of u3, one api event of u3,
one web event of another account, one earlier-month web event of u3. -/
def dbC3 : Db :=
  { users := [uC3],
    generations :=
      [{ id := 1, user_id := "u3", doc_type := "readme", repo_url := "r", source := "web",
         generation_time_ms := none, created_at := 50,
         copied := false, downloaded := false, pr_created := false },
       { id := 2, user_id := "u3", doc_type := "readme", repo_url := "r", source := "api",
         generation_time_ms := none, created_at := 90,
         copied := false, downloaded := false, pr_created := false },
       { id := 3, user_id := "other", doc_type := "readme", repo_url := "r", source := "web",
         generation_time_ms := none, created_at := 90,
         copied := false, downloaded := false, pr_created := false },
       { id := 4, user_id := "u3", doc_type := "readme", repo_url := "r", source := "web",
         generation_time_ms := none, created_at := 5,
         copied := false, downloaded := false, pr_created := false }],
    apiKeys := [], nextId := 5 }

/-- C3 counterexample: the claim states that in every web-channel
entitlement evaluation the usage figure equals the number of web-channel
events of the account from the current month, with other channels never
counted.  The earlier-revision evaluator canGenerate, still invoked by
web routes, counts with getMonthlyUsage, which has no channel filter:
on the concrete ledger it reports usage 2 although the account has only
one web event in the month, because its api event is counted too. -/
theorem c3_legacy_usage_counts_api_events :
    (canGenerate dbC3 "u3" 10).usage = 2 ∧
    ((dbC3.generations.filter (fun g => decide (isCountedWebEvent "u3" 10 g))).length : Int) = 1 ∧
    (canGenerate dbC3 "u3" 10).usage ≠
      ((dbC3.generations.filter (fun g => decide (isCountedWebEvent "u3" 10 g))).length : Int) := by
  decide

/-- C3 witness: the theorem applied to the concrete four-event ledger,
where exactly one event is counted. -/
theorem c3_witness :
    findUser dbC3 "u3" = some uC3 ∧
    (((canGenerateWeb dbC3 "u3" 10).usage =
       ((dbC3.generations.filter (fun g => decide (isCountedWebEvent "u3" 10 g))).length : Int)) ∧
     (∀ g : Generation, ¬ isCountedWebEvent "u3" 10 g →
       (canGenerateWeb { dbC3 with generations := g :: dbC3.generations } "u3" 10).usage =
         (canGenerateWeb dbC3 "u3" 10).usage)) :=
  ⟨by decide, c3_web_usage_counts_exactly_month_web_events dbC3 "u3" 10 uC3 (by decide)⟩

/-- Fixture for C6: an api_pro user whose counter already equals the
plan api limit of 100, inside the current 30-day window. -/
def uC6 : User :=
  { id := "u9", github_id := "g9", plan := .api_pro, is_pro := false,
    api_calls_limit := 100, api_calls_used := 100, api_calls_reset_at := 0,
    stripe_customer_id := none, stripe_subscription_id := none,
    upgraded_at := none, canceled_at := none }

/-- Fixture for C6: store with that user and a key resolving to it. -/
def dbC6 : Db :=
  { users := [uC6], generations := [],
    apiKeys :=
      [{ id := 1, user_id := "u9", key := "sk_live_testkey", name := "Default",
         created_at := 0, last_used_at := none }],
    nextId := 2 }

/-- C6 counterexample: the claim states authenticateApiRequest only
resolves the credential and never itself enforces entitlement.  On a
store where the key resolves to an account at its api limit, the
operation itself returns a 429 quota failure instead of a successful
resolution. -/
theorem c6_authenticate_itself_enforces_quota :
    getUserByApiKey dbC6 "sk_live_testkey" = some uC6 ∧
    (authenticateApiRequest dbC6 (some "Bearer sk_live_testkey") 0).success = false ∧
    (authenticateApiRequest dbC6 (some "Bearer sk_live_testkey") 0).status = some 429 := by
  decide

/-- C6 amended: authenticateApiRequest resolves the credential and then
itself calls canGenerateApi, succeeding with the resolved user exactly
when that evaluation allows and otherwise failing with status 429; the
generate route performs a further canGenerateApi call after
authentication succeeds. -/
theorem c6_authenticate_resolves_and_checks_quota (db : Db) (header k : String)
    (u : User) (now : Nat)
    (hpre : strStartsWith header "Bearer " = true)
    (hdrop : strDrop header 7 = k)
    (hk : strStartsWith k "sk_live_" = true)
    (hu : getUserByApiKey db k = some u) :
    (authenticateApiRequest db (some header) now).success = (canGenerateApi db u.id now).allowed ∧
    ((canGenerateApi db u.id now).allowed = true →
      (authenticateApiRequest db (some header) now).user = some u) ∧
    ((canGenerateApi db u.id now).allowed = false →
      (authenticateApiRequest db (some header) now).status = some 429) := by
  cases h : (canGenerateApi db u.id now).allowed <;>
    simp [authenticateApiRequest, hpre, hdrop, hk, hu, h]

/-- C6 witness: the amended theorem applied to the concrete store with
the account at its limit. -/
theorem c6_witness :
    (strStartsWith "Bearer sk_live_testkey" "Bearer " = true ∧
     strDrop "Bearer sk_live_testkey" 7 = "sk_live_testkey" ∧
     strStartsWith "sk_live_testkey" "sk_live_" = true ∧
     getUserByApiKey dbC6 "sk_live_testkey" = some uC6) ∧
    ((authenticateApiRequest dbC6 (some "Bearer sk_live_testkey") 0).success =
       (canGenerateApi dbC6 uC6.id 0).allowed ∧
     ((canGenerateApi dbC6 uC6.id 0).allowed = true →
       (authenticateApiRequest dbC6 (some "Bearer sk_live_testkey") 0).user = some uC6) ∧
     ((canGenerateApi dbC6 uC6.id 0).allowed = false →
       (authenticateApiRequest dbC6 (some "Bearer sk_live_testkey") 0).status = some 429)) :=
  ⟨⟨by decide, by decide, by decide, by decide⟩,
   c6_authenticate_resolves_and_checks_quota dbC6 "Bearer sk_live_testkey" "sk_live_testkey"
     uC6 0 (by decide) (by decide) (by decide) (by decide)⟩

/-- Fixture for C9: an empty store. -/
def dbC9 : Db := { users := [], generations := [], apiKeys := [], nextId := 1 }

/-- Fixture for C9: a 32-character random suffix as produced by
generateRandomString 32 at the call site. -/
def suffixC9 : String := "Ab3dEf6hIj9kLm2nOp5qRs8tUv1wXy4z"

/-- C9 counterexample: the claim states the persisted representation of
the secret is a non-reversible reference or hash, never the recoverable
plaintext.  After createApiKey, the key column of the inserted api_keys
row equals the full returned secret verbatim, and the preview shown by
listing differs from it. -/
theorem c9_secret_persisted_verbatim :
    ((createApiKey dbC9 "u1" "Default" suffixC9 0).2.apiKeys.map (fun r => r.key) =
      [(createApiKey dbC9 "u1" "Default" suffixC9 0).1]) ∧
    keyPreview (createApiKey dbC9 "u1" "Default" suffixC9 0).1 ≠
      (createApiKey dbC9 "u1" "Default" suffixC9 0).1 := by
  decide

/-- C9 amended: the key listing exposes only the truncated key_preview
of each stored key (first 12 and last 4 characters), but the persisted
representation is the plaintext itself: the created row stores the full
returned secret in its key column. -/
theorem c9_listing_truncates_but_store_holds_plaintext (db : Db)
    (userId name randomSuffix : String) (now : Nat) :
    (∃ r, r ∈ (createApiKey db userId name randomSuffix now).2.apiKeys ∧
      r.key = (createApiKey db userId name randomSuffix now).1) ∧
    (∀ v, v ∈ getApiKeys (createApiKey db userId name randomSuffix now).2 userId →
      ∃ r, r ∈ (createApiKey db userId name randomSuffix now).2.apiKeys ∧
        r.user_id = userId ∧ v.key_preview = keyPreview r.key) := by
  refine ⟨⟨_, List.mem_cons_self _ _, rfl⟩, ?_⟩
  intro v hv
  unfold getApiKeys at hv
  rw [List.mem_map] at hv
  obtain ⟨r, hr, hvr⟩ := hv
  rw [List.mem_filter] at hr
  refine ⟨r, hr.1, ?_, ?_⟩
  · exact eq_of_beq hr.2
  · rw [← hvr]

/-- C9 witness: the amended theorem applied to the concrete creation;
the previewed listing entry and the stored plaintext instantiate the
two conjuncts. -/
theorem c9_witness :
    (∃ r, r ∈ (createApiKey dbC9 "u1" "Default" suffixC9 0).2.apiKeys ∧
      r.key = (createApiKey dbC9 "u1" "Default" suffixC9 0).1) ∧
    (∀ v, v ∈ getApiKeys (createApiKey dbC9 "u1" "Default" suffixC9 0).2 "u1" →
      ∃ r, r ∈ (createApiKey dbC9 "u1" "Default" suffixC9 0).2.apiKeys ∧
        r.user_id = "u1" ∧ v.key_preview = keyPreview r.key) :=
  c9_listing_truncates_but_store_holds_plaintext dbC9 "u1" "Default" suffixC9 0

/-- A field-preserving map of the users list commutes with the primary
key read. -/
theorem findUser_users_map (db : Db) (g : User → User) (userId : String)
    (hg : ∀ u, (g u).id = u.id) :
    findUser { db with users := db.users.map g } userId = (findUser db userId).map g := by
  unfold findUser
  rw [List.find?_map]
  congr 2
  funext u
  simp [Function.comp, hg]

/-- findUser after a successful updateUsersById targeting the same id. -/
theorem findUser_updateUsersById (db : Db) (userId uid : String) (f : User → User)
    (hf : ∀ u, (f u).id = u.id) :
    findUser (updateUsersById db userId f true) uid =
      (findUser db uid).map (fun u => if u.id == userId then f u else u) := by
  unfold updateUsersById
  simp only [if_true]
  refine findUser_users_map db _ uid ?_
  intro u
  by_cases h : u.id == userId <;> simp [h, hf]

/-- The store transition of a verified checkout-completed delivery is
exactly one checkoutUpdate of the users row named in the metadata. -/
theorem webhookPOST_checkout_db (priceToPlan : String → Option PlanConfig)
    (req : WebhookRequest) (db : Db) (now : Nat) (updateOk : Bool)
    (sig userId subId pid : String) (planConfig : PlanConfig)
    (hs : req.signature = some sig) (hv : req.signatureValid = true)
    (ht : req.event.type = .checkout_session_completed)
    (hm : req.event.metadata_user_id = some userId)
    (hsub : req.event.session_subscription = some subId)
    (hp : req.event.subscription_price_id = some pid)
    (hcfg : priceToPlan pid = some planConfig) :
    (webhookPOST priceToPlan req db now updateOk).2 =
      updateUsersById db userId
        (checkoutUpdate planConfig req.event.session_customer subId now) updateOk := by
  simp [webhookPOST, hs, hv, ht, hm, hsub, hp, hcfg]

/-- C8: delivering the same verified checkout-completed event twice is
idempotent on the entitlement fields: the plan, is_pro and
api_calls_limit after the second delivery equal those after the first,
and api_calls_used is the absolute value 0. -/
theorem c8_checkout_replay_idempotent (priceToPlan : String → Option PlanConfig)
    (req : WebhookRequest) (db : Db) (now1 now2 : Nat)
    (sig userId subId pid : String) (planConfig : PlanConfig) (u0 u1 u2 : User)
    (hs : req.signature = some sig) (hv : req.signatureValid = true)
    (ht : req.event.type = .checkout_session_completed)
    (hm : req.event.metadata_user_id = some userId)
    (hsub : req.event.session_subscription = some subId)
    (hp : req.event.subscription_price_id = some pid)
    (hcfg : priceToPlan pid = some planConfig)
    (hu0 : findUser db userId = some u0)
    (h1 : findUser (webhookPOST priceToPlan req db now1 true).2 userId = some u1)
    (h2 : findUser
        (webhookPOST priceToPlan req (webhookPOST priceToPlan req db now1 true).2 now2 true).2
        userId = some u2) :
    u2.plan = u1.plan ∧ u2.is_pro = u1.is_pro ∧
    u2.api_calls_limit = u1.api_calls_limit ∧ u2.api_calls_used = 0 := by
  have hdb1 := webhookPOST_checkout_db priceToPlan req db now1 true
    sig userId subId pid planConfig hs hv ht hm hsub hp hcfg
  have hdb2 := webhookPOST_checkout_db priceToPlan req
    (webhookPOST priceToPlan req db now1 true).2 now2 true
    sig userId subId pid planConfig hs hv ht hm hsub hp hcfg
  have hid0 : (u0.id == userId) = true := by
    unfold findUser at hu0
    exact List.find?_some (p := fun (u : User) => u.id == userId) hu0
  have heq0 : u0.id = userId := by simpa using hid0
  have hfind1 : findUser (webhookPOST priceToPlan req db now1 true).2 userId =
      some (checkoutUpdate planConfig req.event.session_customer subId now1 u0) := by
    rw [hdb1,
      findUser_updateUsersById db userId userId
        (checkoutUpdate planConfig req.event.session_customer subId now1) (fun u => rfl),
      hu0]
    simp [heq0]
  have hu1 : u1 = checkoutUpdate planConfig req.event.session_customer subId now1 u0 :=
    Option.some.inj (h1.symm.trans hfind1)
  have heq1 : u1.id = userId := by
    rw [hu1]
    exact heq0
  have hfind2 : findUser
      (webhookPOST priceToPlan req (webhookPOST priceToPlan req db now1 true).2 now2 true).2
      userId =
      some (checkoutUpdate planConfig req.event.session_customer subId now2 u1) := by
    rw [hdb2,
      findUser_updateUsersById (webhookPOST priceToPlan req db now1 true).2 userId userId
        (checkoutUpdate planConfig req.event.session_customer subId now2) (fun u => rfl),
      h1]
    simp [heq1]
  have hu2 : u2 = checkoutUpdate planConfig req.event.session_customer subId now2 u1 :=
    Option.some.inj (h2.symm.trans hfind2)
  refine ⟨?_, ?_, ?_, ?_⟩ <;> simp [hu2, hu1, checkoutUpdate]

/-- Fixture for C8: the bundle plan configuration. -/
def cfgC8 : PlanConfig := { plan := .bundle, is_pro := true, api_calls_limit := 100 }

/-- Fixture for C8: a price table mapping one price id to the bundle. -/
def priceToPlanC8 : String → Option PlanConfig :=
  fun p => if p == "price_bundle" then some cfgC8 else none

/-- Fixture for C8: a free user with some API usage on the counter. -/
def u0C8 : User :=
  { id := "u1", github_id := "g1", plan := .free, is_pro := false,
    api_calls_limit := 0, api_calls_used := 3, api_calls_reset_at := 0,
    stripe_customer_id := none, stripe_subscription_id := none,
    upgraded_at := none, canceled_at := none }

/-- Fixture for C8: store holding that user. -/
def dbC8 : Db := { users := [u0C8], generations := [], apiKeys := [], nextId := 2 }

/-- Fixture for C8: a verified checkout-completed event for that user. -/
def reqC8 : WebhookRequest :=
  { signature := some "sig", signatureValid := true,
    event :=
      { type := .checkout_session_completed, metadata_user_id := some "u1",
        session_subscription := some "sub1", session_customer := some "cus1",
        subscription_price_id := some "price_bundle", subscription_id := "sub1",
        subscription_status := "active" } }

/-- Fixture for C8: the store after the first delivery. -/
def dbC8a : Db := (webhookPOST priceToPlanC8 reqC8 dbC8 1000 true).2

/-- Fixture for C8: the store after the replayed second delivery. -/
def dbC8b : Db := (webhookPOST priceToPlanC8 reqC8 dbC8a 2000 true).2

/-- Fixture for C8: the user row after the first delivery. -/
def u1C8 : User := (findUser dbC8a "u1").getD u0C8

/-- Fixture for C8: the user row after the second delivery. -/
def u2C8 : User := (findUser dbC8b "u1").getD u0C8

/-- C8 witness: the theorem applied to the concrete double delivery. -/
theorem c8_witness :
    (findUser dbC8 "u1" = some u0C8 ∧ findUser dbC8a "u1" = some u1C8 ∧
     findUser dbC8b "u1" = some u2C8) ∧
    (u2C8.plan = u1C8.plan ∧ u2C8.is_pro = u1C8.is_pro ∧
     u2C8.api_calls_limit = u1C8.api_calls_limit ∧ u2C8.api_calls_used = 0) :=
  ⟨⟨by decide, by decide, by decide⟩,
   c8_checkout_replay_idempotent priceToPlanC8 reqC8 dbC8 1000 2000
     "sig" "u1" "sub1" "price_bundle" cfgC8 u0C8 u1C8 u2C8
     rfl rfl rfl rfl rfl rfl (by decide) (by decide) (by decide) (by decide)⟩

end SourceDocs
